import Mathlib

/-!
Verification of the CRISAP 4.0.5 self-diagnostics and self-healing engine
(`crisap_4_0_5.py`, class `SystemHealth`).

The Python code is shallowly embedded: each environment-dependent primitive
(filesystem state, importability of a package, environment variables, free
disk space, `pip install` exit status) becomes an explicit parameter, and
each check becomes a pure Lean function mirroring the control flow of the
corresponding Python method.
-/

/-- Python substring containment on lists of characters: does the list start
with the needle?  Mirrors the semantics of Python's `in` operator used at
`if f"{key}=" in env_content`. -/
def charsLeadMatch : List Char → List Char → Bool
  | [], _ => true
  | _ :: _, [] => false
  | a :: as, b :: bs => a == b && charsLeadMatch as bs

/-- Python substring containment: the needle occurs contiguously somewhere in
the haystack. -/
def charsContain (needle : List Char) : List Char → Bool
  | [] => charsLeadMatch needle []
  | b :: bs => charsLeadMatch needle (b :: bs) || charsContain needle bs

/-- `containsSub hay needle` is Python's `needle in hay` on strings. -/
def containsSub (hay needle : String) : Bool :=
  charsContain needle.toList hay.toList

/-- Python tuple/list `<` comparison on naturals (lexicographic; a proper
prefix is smaller).  `sys.version_info >= REQUIRED_PYTHON_VERSION` compares a
longer runtime tuple against the 2-tuple `(3, 7)` with exactly these rules. -/
def pyListLt : List Nat → List Nat → Bool
  | [], [] => false
  | [], _ :: _ => true
  | _ :: _, [] => false
  | a :: as, b :: bs =>
      if a < b then true
      else if b < a then false
      else pyListLt as bs

/-- Python `>=` on tuples, via `x >= y ↔ ¬ (x < y)` (total order). -/
def pyListGe (x y : List Nat) : Bool := ! pyListLt x y

/-- `REQUIRED_PYTHON_VERSION = (3, 7)` (line 36). -/
def REQUIRED_PYTHON_VERSION : List Nat := [3, 7]

/-- `SystemHealth._check_python_version` (lines 106-117):
`sys.version_info >= REQUIRED_PYTHON_VERSION`, where the runtime version
tuple starts with `(major, minor, micro)`.  Components after the first two
are never compared against the 2-element required tuple, so the embedding
carries only `(major, minor, micro)`. -/
def check_python_version (major minor micro : Nat) : Bool :=
  pyListGe [major, minor, micro] REQUIRED_PYTHON_VERSION

/-- Filesystem state of one required directory, as observed/affected by
`_check_directories`: whether it already exists, whether `os.makedirs` would
succeed when it is missing, and whether the directory (once present) is
writable (`os.access(dir_path, os.W_OK)`). -/
structure DirState where
  present : Bool
  creatable : Bool
  writable : Bool
deriving DecidableEq

/-- `required_dirs` of `_check_directories` (lines 121-123). -/
def required_dirs : List String :=
  ["config", "data", "logs", "models", "exports", "cache", "temp"]

/-- One iteration of the loop in `_check_directories` (lines 126-142): a
missing directory is created (creation failure records failure and skips the
writability test via `continue`); an existing or just-created directory must
be writable. -/
def checkOneDir (s : DirState) : Bool :=
  if s.present then s.writable
  else if s.creatable then s.writable
  else false

/-- `SystemHealth._check_directories` (lines 119-144): `all_ok` starts true
and is cleared by any per-directory failure. -/
def check_directories (st : String → DirState) : Bool :=
  required_dirs.foldl (fun all_ok d => all_ok && checkOneDir (st d)) true

/-- `required_packages` of `_check_dependencies` (lines 148-150). -/
def required_packages : List String :=
  ["numpy", "pandas", "streamlit", "openai", "supabase", "folium", "web3"]

/-- The installation loop of `_check_dependencies` (lines 166-177): every
missing package is attempted in order; a failed `pip install`
(`CalledProcessError`) clears `all_ok` and the loop continues.  Returns the
final `all_ok` together with the list of packages for which an installation
was attempted. -/
def depInstallLoop (installOk : String → Bool) : List String → Bool → Bool × List String
  | [], all_ok => (all_ok, [])
  | p :: rest, all_ok =>
      let r := depInstallLoop installOk rest (all_ok && installOk p)
      (r.fst, p :: r.snd)

/-- `SystemHealth._check_dependencies` (lines 146-179): `importable p` models
`__import__(p)` succeeding at probe time, `installOk p` models the exit
status of `pip install p`.  Returns the boolean result and the list of
attempted installations. -/
def check_dependencies (importable installOk : String → Bool) : Bool × List String :=
  let missing_packages := required_packages.filter (fun p => ! importable p)
  let all_ok := missing_packages.isEmpty
  if missing_packages.isEmpty then (all_ok, [])
  else depInstallLoop installOk missing_packages all_ok

/-- `required_keys` of `_check_api_keys` (lines 183-185). -/
def required_keys : List String :=
  ["OPENAI_API_KEY", "SUPABASE_URL", "SUPABASE_KEY", "INFURA_PROJECT_ID"]

/-- Ambient state read by `_check_api_keys`: `envHas k` models
`os.environ.get(k)` being truthy; `envFileExists` models
`os.path.exists(env_path)` for the `.env` file; `envFileContent` is the text
read from it when it exists. -/
structure KeyEnv where
  envHas : String → Bool
  envFileExists : Bool
  envFileContent : String

/-- Result of `_check_api_keys`, together with the filesystem effects it
performed: whether the `.env` file was opened and read, and whether a
template `.env` file was created via `_create_env_template`. -/
structure ApiKeyOutcome where
  result : Bool
  readSecrets : Bool
  createdTemplate : Bool
deriving DecidableEq

/-- `SystemHealth._check_api_keys` (lines 181-217): keys missing from the
environment are looked up in the `.env` file (substring match on `"KEY="`)
when that file exists; if keys are still missing, a template is created only
when no `.env` file exists, and `all_ok` becomes false. -/
def check_api_keys (e : KeyEnv) : ApiKeyOutcome :=
  let missing_keys := required_keys.filter (fun k => ! e.envHas k)
  if missing_keys.isEmpty then ⟨true, false, false⟩
  else
    let still_missing :=
      if e.envFileExists then
        missing_keys.filter (fun k => ! containsSub e.envFileContent (k ++ "="))
      else missing_keys
    if still_missing.isEmpty then ⟨true, e.envFileExists, false⟩
    else ⟨false, e.envFileExists, ! e.envFileExists⟩

/-- `SystemHealth._check_disk_space` (lines 219-240): `freeBytes` is the
queried free space in bytes (`none` models any exception while querying).
`min_space_mb = 500`; the code converts bytes to megabytes (an exact
binary-float division, embedded as exact rational division) and fails when
the result is strictly below the threshold. -/
def check_disk_space (freeBytes : Option Nat) : Bool :=
  match freeBytes with
  | none => false
  | some free_space =>
      let free_space_mb : ℚ := (free_space : ℚ) / (1024 * 1024)
      if free_space_mb < 500 then false else true

/-- The ambient environment consumed by one `run_self_diagnostics` call. -/
structure Env where
  major : Nat
  minor : Nat
  micro : Nat
  dirs : String → DirState
  importable : String → Bool
  installOk : String → Bool
  keyEnv : KeyEnv
  freeBytes : Option Nat

/-- `SystemHealth.run_self_diagnostics` (lines 75-104): runs the five checks
and stores their results plus the derived `"overall"` entry
(`all([...])` over the five booleans, lines 95-102). -/
def run_self_diagnostics (e : Env) : List (String × Bool) :=
  let python_version_ok := check_python_version e.major e.minor e.micro
  let directories_ok := check_directories e.dirs
  let dependencies_ok := (check_dependencies e.importable e.installOk).fst
  let api_keys_ok := (check_api_keys e.keyEnv).result
  let disk_space_ok := check_disk_space e.freeBytes
  [("python_version", python_version_ok),
   ("directories", directories_ok),
   ("dependencies", dependencies_ok),
   ("api_keys", api_keys_ok),
   ("disk_space", disk_space_ok),
   ("overall",
     python_version_ok && directories_ok && dependencies_ok && api_keys_ok && disk_space_ok)]

/-- `required_packages` of `_fix_dependencies` (lines 353-361), the
remediation package list. -/
def fix_required_packages : List String :=
  ["numpy", "pandas", "scipy", "scikit-learn", "xgboost", "joblib",
   "tensorflow", "torch", "transformers", "geopandas",
   "shapely", "rasterio", "fiona", "pyproj", "folium", "h3", "requests",
   "beautifulsoup4", "matplotlib", "seaborn", "plotly", "dash", "streamlit",
   "streamlit_folium", "reportlab", "python-docx", "xlsxwriter", "boto3",
   "azure-storage-blob", "google-cloud-storage", "web3", "supabase-py",
   "pyjwt", "openai", "nltk", "spacy", "langchain", "pycountry", "python-dotenv"]

/-- The report keys read by `perform_self_healing`:
`self.health_check_results.get("directories", True)` (line 291) and
`self.health_check_results.get("dependencies", True)` (line 300). -/
def healing_consulted : List String := ["directories", "dependencies"]

/-- Outcome of `perform_self_healing`: its boolean return value, the health
report it acted on (the stored `health_check_results` after the call), and
the `fixed_issues` / `failed_fixes` lists it accumulated. -/
structure HealOutcome where
  result : Bool
  report : List (String × Bool)
  fixed : List String
  failed : List String
deriving DecidableEq

/-- `SystemHealth.perform_self_healing` (lines 278-315): `probe` is the
report `run_self_diagnostics` would produce if invoked (it is consulted only
when the stored report `r0` is empty, line 283); `dirsFixOk` / `depsFixOk`
model the boolean results of `_fix_directories` / `_fix_dependencies`.
Remediation is attempted exactly for a failing `"directories"` entry and a
failing `"dependencies"` entry; the call returns
`len(failed_fixes) == 0`. -/
def perform_self_healing (probe : List (String × Bool)) (dirsFixOk depsFixOk : Bool)
    (r0 : List (String × Bool)) : HealOutcome :=
  let report := if r0.isEmpty then probe else r0
  let fixed0 : List String := []
  let failed0 : List String := []
  let fixedFailed1 :=
    if (report.lookup "directories").getD true then (fixed0, failed0)
    else if dirsFixOk then (fixed0 ++ ["directories"], failed0)
    else (fixed0, failed0 ++ ["directories"])
  let fixedFailed2 :=
    if (report.lookup "dependencies").getD true then fixedFailed1
    else if depsFixOk then (fixedFailed1.fst ++ ["dependencies"], fixedFailed1.snd)
    else (fixedFailed1.fst, fixedFailed1.snd ++ ["dependencies"])
  ⟨fixedFailed2.snd.isEmpty, report, fixedFailed2.fst, fixedFailed2.snd⟩

/-- A concrete fully-healthy environment, used to evaluate the diagnostics
report at a specific input. -/
def env0 : Env where
  major := 3
  minor := 8
  micro := 0
  dirs := fun _ => ⟨true, true, true⟩
  importable := fun _ => true
  installOk := fun _ => true
  keyEnv := ⟨fun _ => true, false, ""⟩
  freeBytes := some (1024 * 1024 * 1024)

/-- A concrete key environment in which every required key is present in the
process environment. -/
def keyEnvAll : KeyEnv := ⟨fun _ => true, true, "unrelated"⟩

/-- C6: the interpreter-version check passes iff `(major, minor)` is at least
`(3, 7)` lexicographically, and the micro component never affects the
result. -/
theorem check_python_version_spec (major minor micro micro' : Nat) :
    (check_python_version major minor micro = true ↔
      3 < major ∨ (major = 3 ∧ 7 ≤ minor)) ∧
    check_python_version major minor micro = check_python_version major minor micro' := by
  constructor
  · simp only [check_python_version, REQUIRED_PYTHON_VERSION, pyListGe, pyListLt]
    split_ifs <;> simp <;> omega
  · simp only [check_python_version, REQUIRED_PYTHON_VERSION, pyListGe, pyListLt]

/-- C7 counterexample: the probe package `"supabase"` does not appear in the
remediation package list (which carries `"supabase-py"` instead), so the
remediation list is not a superset of the probe list. -/
theorem probe_package_not_in_fix_list :
    "supabase" ∈ required_packages ∧ "supabase" ∉ fix_required_packages := by
  decide

/-- C7 amended: every probe package other than `"supabase"` appears in the
remediation package list; `"supabase"` itself is absent from that list, which
instead carries the variant name `"supabase-py"`. -/
theorem fix_list_superset_except_supabase :
    (required_packages.filter (fun p => ! (p == "supabase"))).all
      (fun p => fix_required_packages.contains p) = true ∧
    fix_required_packages.contains "supabase" = false ∧
    fix_required_packages.contains "supabase-py" = true := by
  decide

/-- C8 counterexample: the health report stored by `run_self_diagnostics`
has no entry named `"interpreter_version"`; the interpreter-version result is
stored under the key `"python_version"`. -/
theorem report_lacks_interpreter_version_key :
    (run_self_diagnostics env0).lookup "interpreter_version" = none ∧
    (run_self_diagnostics env0).lookup "python_version" = some true := by
  constructor <;> rfl

/-- C8 amended: for every environment, the report's keys are exactly
`python_version`, `directories`, `dependencies`, `api_keys`, `disk_space`
(each mapped to a boolean by construction) plus the derived `overall`, and
the two names consulted by the repairer are among those keys. -/
theorem report_keys_amended (e : Env) :
    (run_self_diagnostics e).map Prod.fst =
      ["python_version", "directories", "dependencies", "api_keys", "disk_space", "overall"] ∧
    healing_consulted.all
      (fun c => ((run_self_diagnostics e).map Prod.fst).contains c) = true := by
  exact ⟨rfl, rfl⟩

/-- C9: when the stored health report is non-empty, `perform_self_healing`
does not consult the probe (its outcome is independent of what a probe run
would return) and leaves the stored report unchanged. -/
theorem healing_preserves_existing_report (probe probe' rest : List (String × Bool))
    (k : String) (v : Bool) (dirsFixOk depsFixOk : Bool) :
    perform_self_healing probe dirsFixOk depsFixOk ((k, v) :: rest) =
      perform_self_healing probe' dirsFixOk depsFixOk ((k, v) :: rest) ∧
    (perform_self_healing probe dirsFixOk depsFixOk ((k, v) :: rest)).report =
      (k, v) :: rest := by
  exact ⟨rfl, rfl⟩

/-- C1: in the stored health report, `"overall"` is true iff all five
individual check entries are true. -/
theorem overall_iff_all_checks (e : Env) :
    ((run_self_diagnostics e).lookup "overall" = some true) ↔
      ((run_self_diagnostics e).lookup "python_version" = some true ∧
       (run_self_diagnostics e).lookup "directories" = some true ∧
       (run_self_diagnostics e).lookup "dependencies" = some true ∧
       (run_self_diagnostics e).lookup "api_keys" = some true ∧
       (run_self_diagnostics e).lookup "disk_space" = some true) := by
  simp [run_self_diagnostics, List.lookup, and_assoc]

theorem depInstallLoop_fst (installOk : String → Bool) (l : List String) (b : Bool) :
    (depInstallLoop installOk l b).fst = (b && l.all installOk) := by
  induction l generalizing b with
  | nil => simp [depInstallLoop]
  | cons p rest ih => simp [depInstallLoop, ih, Bool.and_assoc]

theorem depInstallLoop_snd (installOk : String → Bool) (l : List String) (b : Bool) :
    (depInstallLoop installOk l b).snd = l := by
  induction l generalizing b with
  | nil => rfl
  | cons p rest ih => simp [depInstallLoop, ih]

/-- C3: the dependency check passes iff no required package was missing at
probe time (a failed installation leaves the result false), and an
installation is attempted for every missing package regardless of earlier
installation failures (the attempt list never depends on `installOk`). -/
theorem check_dependencies_spec (importable installOk : String → Bool) :
    ((check_dependencies importable installOk).fst = true ↔
      ∀ p ∈ required_packages, importable p = true) ∧
    (check_dependencies importable installOk).snd =
      required_packages.filter (fun p => ! importable p) := by
  have heq : check_dependencies importable installOk =
      ((required_packages.filter (fun p => ! importable p)).isEmpty,
       required_packages.filter (fun p => ! importable p)) := by
    unfold check_dependencies
    by_cases h : (required_packages.filter (fun p => ! importable p)).isEmpty
    · simp only [h, if_true]
      rw [List.isEmpty_iff.mp h]
    · simp only [h, if_false, depInstallLoop_snd]
      have hf : (required_packages.filter (fun p => ! importable p)).isEmpty = false := by
        simpa using h
      simp [Prod.ext_iff, depInstallLoop_fst, depInstallLoop_snd, hf]
  rw [heq]
  refine ⟨?_, rfl⟩
  rw [List.isEmpty_iff, List.filter_eq_nil_iff]
  simp

/-- C5: the disk-space check passes exactly when the queried free space is at
least 500 MB (the boundary value passes), and any failure to query free
space yields a failing check. -/
theorem check_disk_space_spec :
    (∀ n : Nat, check_disk_space (some n) = true ↔ 500 * 1024 * 1024 ≤ n) ∧
    check_disk_space none = false := by
  refine ⟨fun n => ?_, rfl⟩
  have key : ((n : ℚ) / (1024 * 1024) < 500) ↔ n < 500 * 1024 * 1024 := by
    rw [div_lt_iff₀ (by norm_num : (0 : ℚ) < 1024 * 1024)]
    constructor
    · intro h; exact_mod_cast h
    · intro h; exact_mod_cast h
  simp only [check_disk_space]
  split_ifs with h
  · rw [key] at h
    simp only [Bool.false_eq_true, false_iff, not_le]
    omega
  · rw [key] at h
    simp only [true_iff]
    omega

/-- C2: `perform_self_healing` takes its report from the probe when no
report is stored, accumulates fixed/failed categories only among
`"directories"` and `"dependencies"`, and returns true iff the failed-to-fix
list is empty. -/
theorem self_healing_spec (probe r0 : List (String × Bool)) (dirsFixOk depsFixOk : Bool) :
    (perform_self_healing probe dirsFixOk depsFixOk []).report = probe ∧
    ((perform_self_healing probe dirsFixOk depsFixOk r0).fixed ++
        (perform_self_healing probe dirsFixOk depsFixOk r0).failed).all
      (fun c => c == "directories" || c == "dependencies") = true ∧
    ((perform_self_healing probe dirsFixOk depsFixOk r0).result = true ↔
      (perform_self_healing probe dirsFixOk depsFixOk r0).failed = []) := by
  refine ⟨rfl, ?_, ?_⟩
  · simp only [perform_self_healing]
    split_ifs <;> simp
  · simp only [perform_self_healing]
    split_ifs <;> simp [List.isEmpty_iff]

/-- C4: the API-key check passes iff every required key is present in the
environment or matched by a `KEY=` substring in an existing secrets file, and
a template is created exactly when the check fails while no secrets file
exists (so a created template always comes with a failing result). -/
theorem check_api_keys_spec (e : KeyEnv) :
    ((check_api_keys e).result = true ↔
      ∀ k ∈ required_keys,
        e.envHas k = true ∨
          (e.envFileExists = true ∧ containsSub e.envFileContent (k ++ "=") = true)) ∧
    (check_api_keys e).createdTemplate =
      (! (check_api_keys e).result && ! e.envFileExists) := by
  by_cases h1 : (required_keys.filter (fun k => ! e.envHas k)).isEmpty
  · have hall : ∀ k ∈ required_keys, e.envHas k = true := by
      rw [List.isEmpty_iff, List.filter_eq_nil_iff] at h1
      intro k hk
      simpa using h1 k hk
    simp only [check_api_keys, h1, if_true]
    constructor
    · simp only [true_iff]
      intro k hk
      exact Or.inl (hall k hk)
    · simp
  · have h1' : (required_keys.filter (fun k => ! e.envHas k)).isEmpty = false := by
      simpa using h1
    obtain ⟨k0, hk0⟩ : ∃ k, k ∈ required_keys.filter (fun k => ! e.envHas k) := by
      rcases List.isEmpty_eq_false_iff_exists_mem.mp h1' with ⟨k, hk⟩
      exact ⟨k, hk⟩
    have hk0req : k0 ∈ required_keys := (List.mem_filter.mp hk0).1
    have hk0env : e.envHas k0 = false := by
      have := (List.mem_filter.mp hk0).2
      simpa using this
    by_cases hf : e.envFileExists
    · by_cases h2 :
        ((required_keys.filter (fun k => ! e.envHas k)).filter
          (fun k => ! containsSub e.envFileContent (k ++ "="))).isEmpty
      · have hfound : ∀ k ∈ required_keys.filter (fun k => ! e.envHas k),
            containsSub e.envFileContent (k ++ "=") = true := by
          rw [List.isEmpty_iff, List.filter_eq_nil_iff] at h2
          intro k hk
          simpa using h2 k hk
        simp only [check_api_keys, h1', Bool.false_eq_true, if_false, hf, if_true, h2,
          Bool.not_true, Bool.and_false]
        constructor
        · simp only [true_iff]
          intro k hk
          by_cases he : e.envHas k = true
          · exact Or.inl he
          · refine Or.inr ⟨trivial, hfound k ?_⟩
            rw [List.mem_filter]
            simp [hk, he]
        · simp
      · have h2' :
          ((required_keys.filter (fun k => ! e.envHas k)).filter
            (fun k => ! containsSub e.envFileContent (k ++ "="))).isEmpty = false := by
          simpa using h2
        obtain ⟨k1, hk1⟩ :
            ∃ k, k ∈ (required_keys.filter (fun k => ! e.envHas k)).filter
              (fun k => ! containsSub e.envFileContent (k ++ "=")) := by
          rcases List.isEmpty_eq_false_iff_exists_mem.mp h2' with ⟨k, hk⟩
          exact ⟨k, hk⟩
        have hk1m := List.mem_filter.mp hk1
        have hk1req : k1 ∈ required_keys := (List.mem_filter.mp hk1m.1).1
        have hk1env : e.envHas k1 = false := by
          have := (List.mem_filter.mp hk1m.1).2
          simpa using this
        have hk1sub : containsSub e.envFileContent (k1 ++ "=") = false := by
          simpa using hk1m.2
        simp only [check_api_keys, h1', Bool.false_eq_true, if_false, hf, if_true, h2',
          Bool.not_true, Bool.and_false]
        constructor
        · simp only [Bool.false_eq_true, false_iff]
          intro hforall
          rcases hforall k1 hk1req with he | ⟨_, hc⟩
          · rw [hk1env] at he
            cases he
          · rw [hk1sub] at hc
            cases hc
        · simp [hf]
    · have hf' : e.envFileExists = false := by
        simpa using hf
      simp only [check_api_keys, h1', Bool.false_eq_true, if_false, hf', h1']
      constructor
      · simp only [Bool.false_eq_true, false_iff]
        intro hforall
        rcases hforall k0 hk0req with he | ⟨hex, _⟩
        · rw [hk0env] at he
          cases he
        · exact hex
      · simp

/-- C10: when every required API key is present in the process environment,
the API-key check succeeds without touching the filesystem: the secrets file
is not read and no template is created. -/
theorem api_keys_env_only_no_file_access (e : KeyEnv)
    (h : ∀ k ∈ required_keys, e.envHas k = true) :
    check_api_keys e = ⟨true, false, false⟩ := by
  have h1 : (required_keys.filter (fun k => ! e.envHas k)).isEmpty = true := by
    rw [List.isEmpty_iff, List.filter_eq_nil_iff]
    intro k hk
    simp [h k hk]
  simp [check_api_keys, h1]

/-- C10 witness: a concrete environment with every required key present. -/
theorem api_keys_env_only_no_file_access_witness :
    (∀ k ∈ required_keys, keyEnvAll.envHas k = true) ∧
      check_api_keys keyEnvAll = ⟨true, false, false⟩ :=
  ⟨by decide, api_keys_env_only_no_file_access keyEnvAll (by decide)⟩
